import Mathlib

/-!
A shallow embedding of the marshalling and synchronisation bridge implemented in
src/src/icapimodule.c together with the foreign data layout declared in
src/icapi/include/IcAPI.h.

Foreign calls are modelled by their observable outcome: the IcReturnType status
they return plus whatever they wrote through their out-parameters.  Host-side
allocation primitives (PyArray_EMPTY, AllocateLStrHandleArray, ...) are modelled
by a success flag.  Scalar payloads (C float and double values) are only ever
copied verbatim by the bridge, never computed with, so they are carried by Int;
byte strings are carried by List Nat.
-/

namespace Icapi

/-- Carrier for C float payloads.  The bridge moves these bytes verbatim, so the
numeric carrier is irrelevant; Int keeps everything decidable. -/
abbrev F32 := Int

/-- Carrier for C double payloads, moved verbatim like F32. -/
abbrev F64 := Int

/-- Byte strings: C char buffers and LabVIEW LStr contents. -/
abbrev ByteStr := List Nat

/-- IcAPI.h lines 5-8: the tri-state return code of every foreign call
(IcReturnType_ok 0, IcReturnType_error 1, IcReturnType_timeout 2). -/
inductive IcReturnType where
  | ok
  | error
  | timeout
  deriving DecidableEq, BEq, Repr

/-- The Python exception classes the bridge raises via PyErr_SetString and
PyArg_ParseTuple. -/
inductive PyExc where
  | ioError
  | timeoutError
  | runtimeError
  | valueError
  | typeError
  deriving DecidableEq, BEq, Repr

/-- A Python-level argument as seen by PyArg_ParseTuple; the bridge functions
modelled here only parse strings and ints. -/
inductive PyArg where
  | str (s : ByteStr)
  | int (i : Int)
  deriving DecidableEq, BEq, Repr

/-- IcAPI.h lines 20-25: the timing record.  Note the declaration order puts
absTime before relTime. -/
structure IcTimingInfo where
  Cycle : Int
  CycleOverall : Int
  absTime : F64
  relTime : F64
  deriving DecidableEq, BEq, Repr

/-- IcAPI.h lines 80-90: the automation record, nine int32 fields in this
declared order. -/
structure IcAutomation where
  AUTO_StepNumber : Int
  AUTO_RunNumber : Int
  AUTO_UseMean : Int
  AUTO_StartCycleMean : Int
  AUTO_StopCycleMean : Int
  AME_ActionNumber : Int
  AME_UserNumber : Int
  AME_StepNumber : Int
  AME_RunNumber : Int
  deriving DecidableEq, BEq, Repr

/-- icapimodule.c lines 41-50: convert_IcTimingInfo builds the Python tuple
with Py_BuildValue of format (iidd) in the order Cycle, CycleOverall, relTime,
absTime. -/
def convert_IcTimingInfo (t : IcTimingInfo) : Int × Int × F64 × F64 :=
  (t.Cycle, t.CycleOverall, t.relTime, t.absTime)

/-- icapimodule.c lines 68-83: convert_tc_tuple parses a Python tuple of format
iidd into rel_cycle, abs_cycle, rel_time, abs_time and assigns the struct
fields.  A PyArg_ParseTuple failure corresponds to an ill-typed Python tuple,
which the Lean tuple type already rules out, hence the parse always succeeds
here. -/
def convert_tc_tuple (tup : Int × Int × F64 × F64) : Option IcTimingInfo :=
  some { Cycle := tup.1, CycleOverall := tup.2.1, absTime := tup.2.2.2, relTime := tup.2.2.1 }

/-- The IcAutomation struct seen through the cast to an int32 pointer at
icapimodule.c line 59: nine 4-byte fields of identical alignment laid out
contiguously, so word i is the i-th declared field. -/
def IcAutomation.int32View (a : IcAutomation) : Nat → Int
  | 0 => a.AUTO_StepNumber
  | 1 => a.AUTO_RunNumber
  | 2 => a.AUTO_UseMean
  | 3 => a.AUTO_StartCycleMean
  | 4 => a.AUTO_StopCycleMean
  | 5 => a.AME_ActionNumber
  | 6 => a.AME_UserNumber
  | 7 => a.AME_StepNumber
  | 8 => a.AME_RunNumber
  | _ => 0

/-- icapimodule.c line 52: static const Py_ssize_t n_autos = 9. -/
def n_autos : Nat := 9

/-- icapimodule.c lines 55-66: convert_Automation builds a 9-tuple whose i-th
item is PyLong_FromLong(p[i]) for the int32 view p of the record. -/
def convert_Automation (a : IcAutomation) : List Int :=
  (List.range n_autos).map a.int32View

/-- Round n up to the next multiple of a (C offset alignment). -/
def alignUp (n a : Nat) : Nat := ((n + a - 1) / a) * a

/-- The standard C struct layout rule over a list of (size, alignment) fields:
each field is placed at its aligned offset, the struct size is the end offset
rounded up to the struct alignment.  Returns (size, alignment). -/
def structLayout (fields : List (Nat × Nat)) : Nat × Nat :=
  let step := fun (acc : Nat × Nat) (fld : Nat × Nat) =>
    (alignUp acc.1 fld.2 + fld.1, max acc.2 fld.2)
  let raw := fields.foldl step (0, 1)
  (alignUp raw.1 raw.2, raw.2)

/-- sizeof(int32_t). -/
def sizeof_int32 : Nat := 4

/-- The declared field list of IcAutomation: nine int32 fields, each of size 4
and alignment 4 (IcAPI.h lines 80-90). -/
def icAutomationFieldLayout : List (Nat × Nat) := List.replicate 9 (sizeof_int32, 4)

/-- sizeof(IcAutomation) computed from the declared layout. -/
def sizeof_IcAutomation : Nat := (structLayout icAutomationFieldLayout).1

/-- Post-call state of a LabVIEW array handle exactly as convert_LVArrayBase
inspects it (icapimodule.c line 106): the handle itself may be NULL, the handle
may point to NULL, or it holds a buffer with dimSize elements of payload. -/
inductive LVArrayHandle where
  | nullHandle
  | nullTarget
  | arr (xs : List F32)
  deriving DecidableEq, BEq, Repr

/-- numpy enum value NPY_FLOAT. -/
def NPY_FLOAT : Nat := 11

/-- numpy enum value NPY_DOUBLE. -/
def NPY_DOUBLE : Nat := 12

/-- icapimodule.c lines 85-134: convert_LVArrayBase.  The dtype switch rejects
anything but NPY_FLOAT and NPY_DOUBLE with a RuntimeError (modelled as none); a
NULL handle or NULL target yields a fresh empty numpy array; otherwise a numpy
array of dimSize elements is allocated and the payload copied with memcpy_s.
npAllocOk models PyArray_EMPTY succeeding; on failure the function returns NULL
(none) with a RuntimeError set by itself or by numpy. -/
def convert_LVArrayBase (npAllocOk : Bool) (dtype : Nat) (h : LVArrayHandle) :
    Option (List F32) :=
  if dtype = NPY_FLOAT ∨ dtype = NPY_DOUBLE then
    match h with
    | .nullHandle => if npAllocOk then some [] else none
    | .nullTarget => if npAllocOk then some [] else none
    | .arr xs => if npAllocOk then some xs else none
  else
    none

/-- The result of a bridge call whose C realisation can dereference a NULL
pointer: crash models undefined behaviour, ret a normal CPython return (an
exception or a value). -/
inductive CResult (α : Type) where
  | crash
  | ret (r : Except PyExc α)

/-- What the foreign IcAPI_GetCurrentPrimaryIon call left in the IcPrimaryIon
record: the SettingName handle (NULL, target NULL, or bytes) and the two float
array handles. -/
structure PrimaryIonWrite where
  settingName : Option (Option ByteStr)
  masses : LVArrayHandle
  multiplier : LVArrayHandle
  deriving DecidableEq, BEq, Repr

/-- icapimodule.c lines 365-373: the tail of icapi_GetCurrentPrimaryIon.  If
the name handle chain or either converted array is NULL, PyErr_SetString
replaces whatever exception was set with RuntimeError (no data received);
otherwise, if no exception is pending the value tuple is built, else NULL is
returned with the pending exception. -/
def primaryIonFinish (exc0 : Option PyExc) (settingName : Option (Option ByteStr))
    (mass_arr mult_arr : Option (List F32)) : Except PyExc (ByteStr × List F32 × List F32) :=
  match settingName, mass_arr, mult_arr with
  | some (some nm), some ma, some mu =>
    match exc0 with
    | none => .ok (nm, ma, mu)
    | some e => .error e
  | _, _, _ => .error .runtimeError

/-- icapimodule.c lines 329-379: icapi_GetCurrentPrimaryIon.  Parses format s;
allocates two float arrays and one string-handle array; line 343 dereferences
the string-handle allocation without a NULL check (crash when allocName is
false).  A non-ok foreign status sets IOError or TimeoutError and leaves the
two converted arrays NULL; an ok status converts both float handles. -/
def icapi_GetCurrentPrimaryIon (args : List PyArg) (allocName : Bool) (npAllocOk : Bool)
    (fc : IcReturnType × PrimaryIonWrite) : CResult (ByteStr × List F32 × List F32) :=
  match args with
  | [PyArg.str _ip] =>
    if allocName then
      match fc with
      | (.ok, w) =>
        .ret (primaryIonFinish none w.settingName
          (convert_LVArrayBase npAllocOk NPY_FLOAT w.masses)
          (convert_LVArrayBase npAllocOk NPY_FLOAT w.multiplier))
      | (.error, w) => .ret (primaryIonFinish (some .ioError) w.settingName none none)
      | (.timeout, w) => .ret (primaryIonFinish (some .timeoutError) w.settingName none none)
    else
      .crash
  | _ => .ret (.error .typeError)

/-- What the foreign IcAPI_GetCurrentTransmission call left in the
IcTransmission record. -/
structure TransmissionWrite where
  name : Option (Option ByteStr)
  mass : LVArrayHandle
  trans : LVArrayHandle
  voltage : F32
  deriving DecidableEq, BEq, Repr

/-- icapimodule.c lines 417-425: the tail of icapi_GetCurrentTransmission,
structured exactly like primaryIonFinish with the voltage appended to the
value tuple. -/
def transmissionFinish (exc0 : Option PyExc) (name : Option (Option ByteStr))
    (mass_arr trans_arr : Option (List F32)) (voltage : F32) :
    Except PyExc (ByteStr × List F32 × List F32 × F32) :=
  match name, mass_arr, trans_arr with
  | some (some nm), some ma, some tr =>
    match exc0 with
    | none => .ok (nm, ma, tr, voltage)
    | some e => .error e
  | _, _, _ => .error .runtimeError

/-- icapimodule.c lines 381-431: icapi_GetCurrentTransmission, structured like
icapi_GetCurrentPrimaryIon (line 395 has the same unchecked dereference of the
string-handle allocation). -/
def icapi_GetCurrentTransmission (args : List PyArg) (allocName : Bool) (npAllocOk : Bool)
    (fc : IcReturnType × TransmissionWrite) : CResult (ByteStr × List F32 × List F32 × F32) :=
  match args with
  | [PyArg.str _ip] =>
    if allocName then
      match fc with
      | (.ok, w) =>
        .ret (transmissionFinish none w.name
          (convert_LVArrayBase npAllocOk NPY_FLOAT w.mass)
          (convert_LVArrayBase npAllocOk NPY_FLOAT w.trans) w.voltage)
      | (.error, w) => .ret (transmissionFinish (some .ioError) w.name none none w.voltage)
      | (.timeout, w) => .ret (transmissionFinish (some .timeoutError) w.name none none w.voltage)
    else
      .crash
  | _ => .ret (.error .typeError)

/-- icapimodule.c lines 439-462: icapi_GetNextTimecycle.  Parses format si (ip
and timeout are both required); the foreign call is modelled as a function of
the timeout actually passed.  A non-ok status raises IOError or TimeoutError
and returns NULL; an ok status returns the pair (Cycle, CycleOverall). -/
def icapi_GetNextTimecycle (args : List PyArg)
    (fc : Int → IcReturnType × IcTimingInfo) : Except PyExc (Int × Int) :=
  match args with
  | [PyArg.str _ip, PyArg.int t] =>
    match fc t with
    | (.ok, timing) => .ok (timing.Cycle, timing.CycleOverall)
    | (.error, _) => .error .ioError
    | (.timeout, _) => .error .timeoutError
  | _ => .error .typeError

/-- A single caller issuing serial icapi_GetNextTimecycle calls; the foreign
side delivers the listed outcomes one per call. -/
def serialNextTimecycles (ip : ByteStr) (t : Int)
    (os : List (IcReturnType × IcTimingInfo)) : List (Except PyExc (Int × Int)) :=
  os.map (fun o => icapi_GetNextTimecycle [PyArg.str ip, PyArg.int t] (fun _ => o))

/-- The overall-cycle values a caller observes from successful returns. -/
def returnedOverallCycles (rs : List (Except PyExc (Int × Int))) : List Int :=
  rs.filterMap (fun r => match r with | .ok p => some p.2 | .error _ => none)

/-- PyArg_ParseTuple format si|i (icapimodule.c line 470): ip and timeout are
required, n_timebins optional. -/
def parse_si_oi (args : List PyArg) : Option (ByteStr × Int × Option Int) :=
  match args with
  | [PyArg.str s, PyArg.int t] => some (s, t, none)
  | [PyArg.str s, PyArg.int t, PyArg.int n] => some (s, t, some n)
  | _ => none

/-- What the foreign IcAPI_GetNextSpec call wrote through its out-parameters:
the automation record, the timing record, the two calibration parameters and
the spectrum buffer contents. -/
structure NextSpecWrite where
  automation : IcAutomation
  timing : IcTimingInfo
  calpars : F64 × F64
  spectrum : List F32
  deriving DecidableEq, BEq, Repr

/-- The host tuple built by convert_IcTimingInfo. -/
abbrev TcTuple := Int × Int × F64 × F64

/-- icapimodule.c lines 464-528: icapi_GetNextSpectrum.  Parses format si|i
with n_timebins defaulting to -1; a negative n_timebins queries
IcAPI_GetNumberOfTimebins (any non-ok status there raises IOError).  The numpy
spectrum buffer is allocated (npAllocOk; failure raises RuntimeError), then
IcAPI_GetNextSpec runs: error raises IOError, timeout frees the buffer and
raises TimeoutError, both returning NULL; ok returns the tuple
(timing, automation, spectrum, calpars). -/
def icapi_GetNextSpectrum (args : List PyArg) (ntbFc : IcReturnType × Int)
    (npAllocOk : Bool) (fc : IcReturnType × NextSpecWrite) :
    Except PyExc (TcTuple × List Int × List F32 × (F64 × F64)) :=
  match parse_si_oi args with
  | none => .error .typeError
  | some (_ip, _t, nopt) =>
    let n0 : Int := nopt.getD (-1)
    let nres : Except PyExc Int :=
      if n0 < 0 then
        match ntbFc with
        | (.ok, v) => .ok v
        | (.error, _) => .error .ioError
        | (.timeout, _) => .error .ioError
      else
        .ok n0
    match nres with
    | .error e => .error e
    | .ok _n =>
      if npAllocOk then
        match fc with
        | (.ok, w) =>
          .ok (convert_IcTimingInfo w.timing, convert_Automation w.automation,
            w.spectrum, w.calpars)
        | (.error, _) => .error .ioError
        | (.timeout, _) => .error .timeoutError
      else
        .error .runtimeError

/-- PyArg_ParseTuple format si|ii (icapimodule.c line 537). -/
def parse_si_oii (args : List PyArg) : Option (ByteStr × Int × Option Int × Option Int) :=
  match args with
  | [PyArg.str s, PyArg.int t] => some (s, t, none, none)
  | [PyArg.str s, PyArg.int t, PyArg.int n] => some (s, t, some n, none)
  | [PyArg.str s, PyArg.int t, PyArg.int n, PyArg.int m] => some (s, t, some n, some m)
  | _ => none

/-- The five foreign handles held by an IcFullcycle record (icapimodule.c
lines 136-157). -/
inductive FcHandle where
  | calPara
  | spectrum
  | addDataArr
  | addDesc
  | addGroup
  deriving DecidableEq, BEq, Repr

/-- Allocation, conversion and deallocation events on the IcFullcycle handles,
in the order icapi_GetNextFullcycle performs them. -/
inductive FcEvent where
  | allocH (h : FcHandle)
  | convertH (h : FcHandle)
  | deallocH (h : FcHandle)
  deriving DecidableEq, BEq, Repr

/-- icapimodule.c lines 136-147: alloc_IcFullcycle allocates CalPara, Spectrum,
AddData.Data, AddData.Desc, AddData.Group in this order. -/
def alloc_IcFullcycle_events : List FcEvent :=
  [FcEvent.allocH FcHandle.calPara, FcEvent.allocH FcHandle.spectrum,
   FcEvent.allocH FcHandle.addDataArr, FcEvent.allocH FcHandle.addDesc,
   FcEvent.allocH FcHandle.addGroup]

/-- icapimodule.c lines 149-157: free_IcFullcycle deallocates the same five
handles, once each. -/
def free_IcFullcycle_events : List FcEvent :=
  [FcEvent.deallocH FcHandle.calPara, FcEvent.deallocH FcHandle.spectrum,
   FcEvent.deallocH FcHandle.addDataArr, FcEvent.deallocH FcHandle.addDesc,
   FcEvent.deallocH FcHandle.addGroup]

/-- What the foreign IcAPI_GetNextFullCycle call left in the IcFullcycle
record.  Desc and Group are the string slots of the two string-handle arrays,
indexed as the copy loop reads them. -/
structure FullcycleWrite where
  spectrum : LVArrayHandle
  addData : LVArrayHandle
  desc : Nat → ByteStr
  group : Nat → ByteStr
  automation : IcAutomation
  timing : IcTimingInfo
  calPara : LVArrayHandle

/-- One entry of the add-data list: value, description, group. -/
abbrev AddDataItem := F32 × ByteStr × ByteStr

/-- icapimodule.c lines 530-610: icapi_GetNextFullcycle, returning its value
together with the trace of handle events.  Every exit path after the
allocation runs free_IcFullcycle exactly once, after any conversions.  The
add-data list mirrors the PyList_New(n) plus PyList_Insert(i) pattern of
lines 575-586, which leaves n trailing NULL slots behind the n inserted
items. -/
def icapi_GetNextFullcycle (args : List PyArg) (a1 a2 a3 : Bool)
    (fc : IcReturnType × FullcycleWrite) :
    Except PyExc (TcTuple × List Int × List F32 × List F32 × List (Option AddDataItem))
      × List FcEvent :=
  match parse_si_oii args with
  | none => (.error .typeError, [])
  | some _ =>
    match fc with
    | (.error, _) =>
      (.error .ioError, alloc_IcFullcycle_events ++ free_IcFullcycle_events)
    | (.timeout, _) =>
      (.error .timeoutError, alloc_IcFullcycle_events ++ free_IcFullcycle_events)
    | (.ok, w) =>
      match convert_LVArrayBase a1 NPY_FLOAT w.spectrum with
      | none =>
        (.error .runtimeError,
          alloc_IcFullcycle_events ++ [FcEvent.convertH FcHandle.spectrum]
            ++ free_IcFullcycle_events)
      | some s_arr =>
        match convert_LVArrayBase a2 NPY_FLOAT w.addData with
        | none =>
          (.error .runtimeError,
            alloc_IcFullcycle_events
              ++ [FcEvent.convertH FcHandle.spectrum, FcEvent.convertH FcHandle.addDataArr]
              ++ free_IcFullcycle_events)
        | some add_arr =>
          let n := add_arr.length
          let items : List AddDataItem :=
            (List.range n).map (fun i => (add_arr.getD i 0, w.desc i, w.group i))
          let add_list : List (Option AddDataItem) :=
            items.map some ++ List.replicate n none
          let tc := convert_IcTimingInfo w.timing
          let auto := convert_Automation w.automation
          match convert_LVArrayBase a3 NPY_DOUBLE w.calPara with
          | none =>
            (.error .runtimeError,
              alloc_IcFullcycle_events
                ++ [FcEvent.convertH FcHandle.spectrum, FcEvent.convertH FcHandle.addDataArr,
                    FcEvent.convertH FcHandle.calPara]
                ++ free_IcFullcycle_events)
          | some cp =>
            (.ok (tc, auto, s_arr, cp, add_list),
              alloc_IcFullcycle_events
                ++ [FcEvent.convertH FcHandle.spectrum, FcEvent.convertH FcHandle.addDataArr,
                    FcEvent.convertH FcHandle.calPara]
                ++ free_IcFullcycle_events)

/-- icapimodule.c lines 662-710: icapi_GetTraceData.  Parses format sii, checks
0 <= trace_type < 3 (ValueError otherwise), queries the peak count (any non-ok
raises IOError), then calls IcAPI_GetTraceDataWithTimingInfo into a buffer of
3 * n_peaks float slots of which the first n_peaks become the result array.
Error raises IOError, timeout TimeoutError; ok returns (timing tuple, data). -/
def icapi_GetTraceData (args : List PyArg) (npeaksFc : IcReturnType × Nat)
    (traceFc : IcReturnType × IcTimingInfo × List F32) :
    Except PyExc (TcTuple × List F32) :=
  match args with
  | [PyArg.str _ip, PyArg.int _t, PyArg.int ttype] =>
    if 0 ≤ ttype ∧ ttype < 3 then
      match npeaksFc with
      | (.ok, n) =>
        match traceFc with
        | (.ok, timing, buf) => .ok (convert_IcTimingInfo timing, buf.take n)
        | (.error, _, _) => .error .ioError
        | (.timeout, _, _) => .error .timeoutError
      | (.error, _) => .error .ioError
      | (.timeout, _) => .error .ioError
    else
      .error .valueError
  | _ => .error .typeError

/-- icapimodule.c line 872: MAX_PATH_LEN. -/
def MAX_PATH_LEN : Nat := 260

/-- C strlen over the fixed buffer: the index of the first NUL byte.  When the
buffer holds no NUL the C scan runs into adjacent memory and yields some value
of at least the buffer length; the clamp against MAX_PATH_LEN in the caller
makes only (strlen < MAX_PATH_LEN) observable, which List.findIdx (returning
the length when no byte matches) models exactly. -/
def strlen (buf : List Nat) : Nat := buf.findIdx (fun b => b == 0)

/-- PyUnicode_DecodeLatin1: every byte maps to the code point of the same
ordinal; with Latin-1 the strict error policy never fires. -/
def PyUnicode_DecodeLatin1 (bytes : List Nat) : List Nat := bytes.map (fun b => b % 256)

/-- icapimodule.c lines 873-891: icapi_GetCurrentDataFileName.  Parses format
s; any non-ok foreign status raises IOError; otherwise s_len is strlen clamped
to MAX_PATH_LEN and the first s_len bytes are Latin-1 decoded. -/
def icapi_GetCurrentDataFileName (args : List PyArg) (fc : IcReturnType × List Nat) :
    Except PyExc (List Nat) :=
  match args with
  | [PyArg.str _ip] =>
    match fc with
    | (.ok, buf) =>
      let n := strlen buf
      let s_len := if n < MAX_PATH_LEN then n else MAX_PATH_LEN
      .ok (PyUnicode_DecodeLatin1 (buf.take s_len))
    | (.error, _) => .error .ioError
    | (.timeout, _) => .error .ioError
  | _ => .error .typeError

/-- A sample ip argument used by concrete witnesses and counterexamples. -/
def ipW : ByteStr := [49, 50, 55]

/-- A sample timing record with Cycle 5 and CycleOverall 7. -/
def timingW : IcTimingInfo := ⟨5, 7, 0, 0⟩

/-- A sample automation record. -/
def autoW : IcAutomation := ⟨1, 2, 3, 4, 5, 6, 7, 8, 9⟩

/-- A sample foreign write for icapi_GetNextSpectrum whose buffer holds the
last-known spectrum [1, 2, 3]. -/
def specWriteW : NextSpecWrite := ⟨autoW, timingW, (0, 0), [1, 2, 3]⟩

/-- A sample foreign write for icapi_GetCurrentPrimaryIon. -/
def pionWriteW : PrimaryIonWrite := ⟨some (some [72]), LVArrayHandle.arr [1], LVArrayHandle.arr [2]⟩

/-- Three ok deliveries carrying overallCycle 10, 11, 12; the third resets the
relative cycle to 0 (a new destination file). -/
def osW : List (IcReturnType × IcTimingInfo) :=
  [(IcReturnType.ok, ⟨3, 10, 0, 0⟩), (IcReturnType.ok, ⟨4, 11, 0, 0⟩),
   (IcReturnType.ok, ⟨0, 12, 0, 0⟩)]

/-- A sample 260-byte buffer whose first NUL sits at index 2. -/
def bufW : List Nat := [80, 121, 0] ++ List.replicate 257 66

/-- A sample foreign write for icapi_GetCurrentTransmission. -/
def transWriteW : TransmissionWrite :=
  ⟨some (some [72]), LVArrayHandle.arr [1], LVArrayHandle.arr [2], 3⟩

theorem strlen_le_length (buf : List Nat) : strlen buf ≤ buf.length := by
  unfold strlen
  induction buf with
  | nil => exact Nat.le_refl 0
  | cons b bs ih =>
    rw [List.findIdx_cons]
    cases hb : (b == 0)
    · simp only [cond_false, List.length_cons]
      omega
    · simp

/-- C10: converting an IcTimingInfo record to the host tuple and parsing that
tuple back yields the original record; both conversion functions use the host
order (Cycle, CycleOverall, relTime, absTime) although the struct declares
absTime before relTime. -/
theorem C10_timing_roundtrip (t : IcTimingInfo) :
    convert_IcTimingInfo t = (t.Cycle, t.CycleOverall, t.relTime, t.absTime) ∧
    convert_tc_tuple (convert_IcTimingInfo t) = some t :=
  ⟨rfl, rfl⟩

/-- C8: the AutomationInfo record is structurally frozen at nine int32 fields:
the declared layout makes sizeof(IcAutomation) equal 9 * sizeof(int32_t),
validating the build-time assertion, and convert_Automation produces the
nine-element tuple of the declared int32 fields in declaration order. -/
theorem C8_automation_frozen (a : IcAutomation) :
    sizeof_IcAutomation = 9 * sizeof_int32 ∧
    (convert_Automation a).length = n_autos ∧
    convert_Automation a =
      [a.AUTO_StepNumber, a.AUTO_RunNumber, a.AUTO_UseMean, a.AUTO_StartCycleMean,
       a.AUTO_StopCycleMean, a.AME_ActionNumber, a.AME_UserNumber, a.AME_StepNumber,
       a.AME_RunNumber] :=
  ⟨rfl, rfl, rfl⟩

/-- C5: a zero-length output array is valid: convert_LVArrayBase maps a NULL
handle, a handle with NULL target, and a dimSize-0 buffer to an empty
host array (for both supported dtypes), and icapi_GetTraceData with a 0-entry
peak table and an ok foreign call returns the timing tuple with an empty data
array rather than failing. -/
theorem C5_zero_length_array_is_valid (ip : ByteStr) (t : Int) (timing : IcTimingInfo)
    (buf : List F32) :
    convert_LVArrayBase true NPY_FLOAT LVArrayHandle.nullHandle = some [] ∧
    convert_LVArrayBase true NPY_FLOAT LVArrayHandle.nullTarget = some [] ∧
    convert_LVArrayBase true NPY_FLOAT (LVArrayHandle.arr []) = some [] ∧
    convert_LVArrayBase true NPY_DOUBLE LVArrayHandle.nullHandle = some [] ∧
    convert_LVArrayBase true NPY_DOUBLE LVArrayHandle.nullTarget = some [] ∧
    convert_LVArrayBase true NPY_DOUBLE (LVArrayHandle.arr []) = some [] ∧
    icapi_GetTraceData [PyArg.str ip, PyArg.int t, PyArg.int 0] (IcReturnType.ok, 0)
      (IcReturnType.ok, timing, buf) = Except.ok (convert_IcTimingInfo timing, []) :=
  ⟨rfl, rfl, rfl, rfl, rfl, rfl, rfl⟩

/-- C9: for an ok foreign call filling the 260-byte buffer, the decoded text
of icapi_GetCurrentDataFileName has length min(index of first NUL, 260):
truncation happens at the first NUL byte or at capacity, whichever comes
first. -/
theorem C9_filename_truncated_at_nul_or_capacity (ip : ByteStr) (buf : List Nat)
    (h : buf.length = MAX_PATH_LEN) :
    ∃ out, icapi_GetCurrentDataFileName [PyArg.str ip] (IcReturnType.ok, buf) = Except.ok out ∧
      out.length = min (strlen buf) MAX_PATH_LEN := by
  refine ⟨_, rfl, ?_⟩
  have hle : strlen buf ≤ MAX_PATH_LEN := h ▸ strlen_le_length buf
  simp only [PyUnicode_DecodeLatin1, List.length_map, List.length_take, h]
  split <;> omega

/-- C9 witness: the truncation theorem applied to the sample buffer whose
first NUL sits at index 2. -/
theorem C9_witness :
    bufW.length = MAX_PATH_LEN ∧
    (∃ out, icapi_GetCurrentDataFileName [PyArg.str ipW] (IcReturnType.ok, bufW) = Except.ok out ∧
      out.length = min (strlen bufW) MAX_PATH_LEN) :=
  ⟨by rw [bufW, MAX_PATH_LEN, List.length_append, List.length_replicate]; rfl,
   C9_filename_truncated_at_nul_or_capacity ipW bufW
     (by rw [bufW, MAX_PATH_LEN, List.length_append, List.length_replicate]; rfl)⟩

theorem returnedOverall_eq (ip : ByteStr) (t : Int) :
    ∀ os : List (IcReturnType × IcTimingInfo), (∀ o ∈ os, o.1 = IcReturnType.ok) →
      returnedOverallCycles (serialNextTimecycles ip t os)
        = os.map (fun o => o.2.CycleOverall) := by
  intro os
  induction os with
  | nil => intro _; rfl
  | cons a l ih =>
    intro hok
    obtain ⟨st, ti⟩ := a
    have ha : st = IcReturnType.ok := hok (st, ti) (List.mem_cons_self _ _)
    subst ha
    have ihl := ih (fun o ho => hok o (List.mem_cons_of_mem _ ho))
    simp only [serialNextTimecycles, List.map_cons, returnedOverallCycles,
      List.filterMap_cons] at ihl ⊢
    simpa [icapi_GetNextTimecycle] using ihl

/-- C2: a single caller issuing serial GetNextTimecycle calls against foreign
deliveries that all return ok with non-decreasing overallCycle values (such as
10, 11, 12) observes the overallCycle results in non-decreasing order — no
call returns a value below its predecessor. -/
theorem C2_serial_overall_nondecreasing (ip : ByteStr) (t : Int)
    (os : List (IcReturnType × IcTimingInfo))
    (hok : ∀ o ∈ os, o.1 = IcReturnType.ok)
    (hmono : os.Chain' (fun a b => a.2.CycleOverall ≤ b.2.CycleOverall)) :
    (returnedOverallCycles (serialNextTimecycles ip t os)).Chain' (· ≤ ·) := by
  rw [returnedOverall_eq ip t os hok]
  exact List.chain'_map_of_chain' (fun o : IcReturnType × IcTimingInfo => o.2.CycleOverall)
    (fun a b h => h) hmono

/-- C2 witness: the monotonicity theorem applied to the concrete delivery
sequence with overallCycle 10, 11, 12 (the third delivery also resets the
relative cycle to 0, which is not an error). -/
theorem C2_witness :
    (∀ o ∈ osW, o.1 = IcReturnType.ok) ∧
    osW.Chain' (fun a b => a.2.CycleOverall ≤ b.2.CycleOverall) ∧
    (returnedOverallCycles (serialNextTimecycles ipW 200 osW)).Chain' (· ≤ ·) :=
  ⟨by simp [osW], by norm_num [osW, List.chain'_cons, List.chain'_singleton],
   C2_serial_overall_nondecreasing ipW 200 osW (by simp [osW])
     (by norm_num [osW, List.chain'_cons, List.chain'_singleton])⟩

theorem primaryIonFinish_mass_null (e : Option PyExc) (sn : Option (Option ByteStr))
    (mu : Option (List F32)) :
    primaryIonFinish e sn none mu = Except.error PyExc.runtimeError := by
  rcases sn with _ | (_ | _) <;> rfl

theorem primaryIonFinish_fresh_ne_timeout (sn : Option (Option ByteStr))
    (ma mu : Option (List F32)) :
    primaryIonFinish none sn ma mu ≠ Except.error PyExc.timeoutError := by
  rcases sn with _ | (_ | _) <;> rcases ma with _ | _ <;> rcases mu with _ | _ <;>
    simp [primaryIonFinish]

theorem transmissionFinish_mass_null (e : Option PyExc) (nm : Option (Option ByteStr))
    (tr : Option (List F32)) (v : F32) :
    transmissionFinish e nm none tr v = Except.error PyExc.runtimeError := by
  rcases nm with _ | (_ | _) <;> rfl

theorem transmissionFinish_fresh_ne_timeout (nm : Option (Option ByteStr))
    (ma tr : Option (List F32)) (v : F32) :
    transmissionFinish none nm ma tr v ≠ Except.error PyExc.timeoutError := by
  rcases nm with _ | (_ | _) <;> rcases ma with _ | _ <;> rcases tr with _ | _ <;>
    simp [transmissionFinish]

/-- C3: the current (non-blocking snapshot) operations GetCurrentPrimaryIon and
GetCurrentTransmission never surface a Timeout outcome: for every foreign-call
outcome the returned result is a value or a non-timeout error, because a non-ok
foreign status leaves the converted arrays NULL and the final no-data check
replaces any pending exception with a RuntimeError. -/
theorem C3_current_ops_never_timeout (ip : ByteStr) (an np : Bool)
    (fp : IcReturnType × PrimaryIonWrite) (ft : IcReturnType × TransmissionWrite) :
    icapi_GetCurrentPrimaryIon [PyArg.str ip] an np fp
        ≠ CResult.ret (Except.error PyExc.timeoutError) ∧
    icapi_GetCurrentTransmission [PyArg.str ip] an np ft
        ≠ CResult.ret (Except.error PyExc.timeoutError) := by
  constructor
  · obtain ⟨st, w⟩ := fp
    cases an
    · simp [icapi_GetCurrentPrimaryIon]
    · cases st <;>
        simp [icapi_GetCurrentPrimaryIon, primaryIonFinish_mass_null,
          primaryIonFinish_fresh_ne_timeout]
  · obtain ⟨st, w⟩ := ft
    cases an
    · simp [icapi_GetCurrentTransmission]
    · cases st <;>
        simp [icapi_GetCurrentTransmission, transmissionFinish_mass_null,
          transmissionFinish_fresh_ne_timeout]

/-- C6: code-bug witness — icapi_GetCurrentPrimaryIon (line 343) and
icapi_GetCurrentTransmission (line 395) dereference the result of
AllocateLStrHandleArray(1) without a NULL check, so an allocation failure is a
NULL-pointer dereference (crash) instead of a reported AllocationFailure. -/
theorem C6_unchecked_allocation_is_dereferenced :
    icapi_GetCurrentPrimaryIon [PyArg.str ipW] false true (IcReturnType.ok, pionWriteW)
        = CResult.crash ∧
    icapi_GetCurrentTransmission [PyArg.str ipW] false true (IcReturnType.ok, transWriteW)
        = CResult.crash :=
  ⟨rfl, rfl⟩

/-- C1: counterexample — when the foreign next-spectrum call reports a timeout
while the last-known spectrum [1, 2, 3] sits in the buffer, the bridge returns
NULL with a TimeoutError set and delivers no data at all (the buffer is
freed); likewise GetNextTimecycle delivers no timing data on timeout.  The
claim that a Timeout status is returned together with the stale data is
therefore false. -/
theorem C1_counterexample :
    icapi_GetNextSpectrum [PyArg.str ipW, PyArg.int 50, PyArg.int 3] (IcReturnType.ok, 3) true
        (IcReturnType.timeout, specWriteW) = Except.error PyExc.timeoutError ∧
    icapi_GetNextTimecycle [PyArg.str ipW, PyArg.int 50]
        (fun _ => (IcReturnType.timeout, timingW)) = Except.error PyExc.timeoutError :=
  ⟨rfl, rfl⟩

/-- C1 (amended): on a foreign timeout every next-style operation raises a
TimeoutError and returns NULL — no payload at all; the last-known
(stale-but-valid) data the foreign side may have written is discarded, not
delivered, and callers distinguish timeout from error only by the exception
class. -/
theorem C1_timeout_raises_and_discards (ip : ByteStr) (t v : Int) (ti : IcTimingInfo)
    (w : NextSpecWrite) (a1 a2 a3 : Bool) (fw : FullcycleWrite) :
    icapi_GetNextTimecycle [PyArg.str ip, PyArg.int t] (fun _ => (IcReturnType.timeout, ti))
        = Except.error PyExc.timeoutError ∧
    icapi_GetNextSpectrum [PyArg.str ip, PyArg.int t] (IcReturnType.ok, v) true
        (IcReturnType.timeout, w) = Except.error PyExc.timeoutError ∧
    (icapi_GetNextFullcycle [PyArg.str ip, PyArg.int t] a1 a2 a3
        (IcReturnType.timeout, fw)).1 = Except.error PyExc.timeoutError :=
  ⟨rfl, rfl, rfl⟩

/-- C7: counterexample — calling GetNextTimecycle with the timeout argument
omitted does not behave as a 1000 ms call: it fails at argument parsing with a
TypeError, while the same call with an explicit 1000 ms timeout succeeds. -/
theorem C7_counterexample :
    icapi_GetNextTimecycle [PyArg.str ipW] (fun _ => (IcReturnType.ok, timingW))
        = Except.error PyExc.typeError ∧
    icapi_GetNextTimecycle [PyArg.str ipW, PyArg.int 1000] (fun _ => (IcReturnType.ok, timingW))
        = Except.ok (5, 7) :=
  ⟨rfl, rfl⟩

/-- C7 (amended): the timeout argument of every blocking (next-style)
operation is mandatory: the parse formats si, si|i, si|ii and sii all require
it, so omitting it fails at argument parsing with a TypeError and the 1000 ms
initialiser in the C code is dead — no default timeout is ever applied. -/
theorem C7_omitted_timeout_fails_parsing (ip : ByteStr)
    (fc : Int → IcReturnType × IcTimingInfo) (ntb : IcReturnType × Int) (b : Bool)
    (fs : IcReturnType × NextSpecWrite) (a1 a2 a3 : Bool)
    (fw : IcReturnType × FullcycleWrite) (np : IcReturnType × Nat)
    (tf : IcReturnType × IcTimingInfo × List F32) :
    icapi_GetNextTimecycle [PyArg.str ip] fc = Except.error PyExc.typeError ∧
    icapi_GetNextSpectrum [PyArg.str ip] ntb b fs = Except.error PyExc.typeError ∧
    (icapi_GetNextFullcycle [PyArg.str ip] a1 a2 a3 fw).1 = Except.error PyExc.typeError ∧
    icapi_GetTraceData [PyArg.str ip] np tf = Except.error PyExc.typeError :=
  ⟨rfl, rfl, rfl, rfl⟩

theorem fcCountsAlloc : ∀ h : FcHandle,
    alloc_IcFullcycle_events.count (FcEvent.allocH h) = 1 ∧
    alloc_IcFullcycle_events.count (FcEvent.deallocH h) = 0 ∧
    free_IcFullcycle_events.count (FcEvent.deallocH h) = 1 := by
  intro h; cases h <;> exact ⟨rfl, rfl, rfl⟩

theorem fcCountsSpec : ∀ h : FcHandle,
    (alloc_IcFullcycle_events ++ [FcEvent.convertH FcHandle.spectrum]).count
        (FcEvent.allocH h) = 1 ∧
    (alloc_IcFullcycle_events ++ [FcEvent.convertH FcHandle.spectrum]).count
        (FcEvent.deallocH h) = 0 ∧
    free_IcFullcycle_events.count (FcEvent.deallocH h) = 1 := by
  intro h; cases h <;> exact ⟨rfl, rfl, rfl⟩

set_option maxHeartbeats 1000000 in
/-- C4: icapi_GetNextFullcycle allocates the five IcFullcycle handles once per
parsed request and, on every exit path — foreign error, foreign timeout, every
intermediate conversion failure, and success — emits the free_IcFullcycle
block as the final events before returning, so each of the five handles is
deallocated exactly once and only after all conversions. -/
theorem C4_fullcycle_releases_each_handle_once (ip : ByteStr) (t : Int) (a1 a2 a3 : Bool)
    (st : IcReturnType) (w : FullcycleWrite) :
    ∃ pre : List FcEvent,
      (icapi_GetNextFullcycle [PyArg.str ip, PyArg.int t] a1 a2 a3 (st, w)).2
          = pre ++ free_IcFullcycle_events ∧
      ∀ h : FcHandle,
        pre.count (FcEvent.allocH h) = 1 ∧ pre.count (FcEvent.deallocH h) = 0 ∧
        free_IcFullcycle_events.count (FcEvent.deallocH h) = 1 := by
  obtain ⟨hs, had, d, g, au, ti, hcp⟩ := w
  cases st with
  | error => exact ⟨_, rfl, fcCountsAlloc⟩
  | timeout => exact ⟨_, rfl, fcCountsAlloc⟩
  | ok =>
    cases a1 <;> cases hs <;> cases a2 <;> cases had <;> cases a3 <;> cases hcp <;>
      exact ⟨_, rfl, fcCountsSpec⟩

end Icapi
